import Mathlib

/-!
Shallow embedding of the k3s-upgrade-monitor program (src/main.py).
Python strings are modelled as lists of characters (`PyStr`), machine
integers as `Nat`/`Int`, and fallible operations as `Option`/`Except`.
-/

/-- Python strings, modelled as lists of characters. -/
abbrev PyStr := List Char

/-- Embeds the Python expression `s.split('-')` used at main.py line 50. -/
def splitOnDash : PyStr → List PyStr
  | [] => [[]]
  | c :: rest =>
    if c = '-' then [] :: splitOnDash rest
    else
      match splitOnDash rest with
      | [] => [[c]]
      | s :: ss => (c :: s) :: ss

/-- Embeds the Python expression `'-'.join(parts)` used at main.py lines 58-59. -/
def joinDash : List PyStr → PyStr
  | [] => []
  | [s] => s
  | s :: s2 :: ss => s ++ '-' :: joinDash (s2 :: ss)

/-- Embeds `parts.index(tok)`: index of the first occurrence, `none` when the
Python call would raise `ValueError`. -/
def pyIndex (tok : PyStr) : List PyStr → Option Nat
  | [] => none
  | p :: ps => if p = tok then some 0 else (pyIndex tok ps).map (· + 1)

def onTok : PyStr := ['o', 'n']

def withTok : PyStr := ['w', 'i', 't', 'h']

/-- Embeds the Python substring test `needle in hay` (contiguous occurrence). -/
def hasSub (needle : PyStr) : PyStr → Bool
  | [] => needle.isEmpty
  | c :: rest => needle.isPrefixOf (c :: rest) || hasSub needle rest

/-- Embeds `get_node_info_from_job_name` (main.py lines 47-62).
Splits the job name on `-`, requires at least 4 segments, locates the first
`on` and the first `with` segment, and rejoins the slices between them.
`(none, none)` models the Python `return None, None` paths (too few segments,
or `list.index` raising `ValueError`). Slices `parts[a:b]` become
`(parts.drop a).take (b - a)`, which like Python yields `[]` when `b ≤ a`. -/
def get_node_info_from_job_name (job_name : PyStr) : Option PyStr × Option PyStr :=
  let parts := splitOnDash job_name
  if parts.length < 4 then (none, none)
  else
    match pyIndex onTok parts, pyIndex withTok parts with
    | some on_index, some with_index =>
      (some (joinDash ((parts.drop (on_index + 1)).take (with_index - (on_index + 1)))),
       some (joinDash ((parts.drop 1).take (on_index - 1))))
    | _, _ => (none, none)

/-- Kubernetes node info as read by the program: `node.status.node_info`. -/
structure NodeInfo where
  kubelet_version : String
deriving DecidableEq

/-- Kubernetes node status: `node.status`. -/
structure NodeStatus where
  node_info : NodeInfo
deriving DecidableEq

/-- Kubernetes node object as used by the program. -/
structure KNode where
  status : NodeStatus
deriving DecidableEq

/-- Embeds `get_k3s_version_from_node` (main.py lines 64-71). The cluster read
`core_v1.read_node` is passed in explicitly; `Except.error` models the Python
call raising. The function itself is total: every exception is caught and
mapped to the sentinel "unknown", so it never raises to its caller. -/
def get_k3s_version_from_node (read_node : PyStr → Except String KNode)
    (node_name : PyStr) : String :=
  match read_node node_name with
  | Except.ok node => node.status.node_info.kubelet_version
  | Except.error _ => "unknown"

/-- Configuration from the environment (main.py lines 17-18): `NTFY_URL`
(empty string when unset, which disables notifications) and
`NTFY_TITLE_PREFIX` (field `titlePfx`). -/
structure NtfyConfig where
  url : String
  titlePfx : String
deriving DecidableEq

/-- Embeds `send_ntfy_notification` (main.py lines 23-45). The HTTP transport
`requests.post` is passed in explicitly: `Except.ok code` models a response
with that status code, `Except.error e` models the call raising. The result
models the log line the function prints; the body is wrapped so that every
transport outcome maps to `Except.ok` — mirroring the try/except that catches
every exception — so an `Except.error` result would model an exception
escaping to the caller. -/
def send_ntfy_notification (cfg : NtfyConfig)
    (post : String → String → String → String → Except String Nat)
    (title message priority : String) : Except String String :=
  if cfg.url = "" then
    Except.ok ("No ntfy URL configured, skipping notification: " ++ title)
  else
    match post cfg.url message (cfg.titlePfx ++ " - " ++ title) priority with
    | Except.ok status_code =>
      if status_code = 200 then Except.ok ("Notification sent: " ++ title)
      else Except.ok "Failed to send notification"
    | Except.error e => Except.ok ("Error sending notification: " ++ e)

/-- Tracked lifecycle state, the values stored in `job_states`
(main.py lines 99, 113, 133, 164). -/
inductive JState where
  | initialized
  | running
  | succeeded
  | failed
deriving DecidableEq

/-- Job status flags (`job.status`). In Python `active`, `succeeded`, `failed`
are `None` or a count; `None` and `0` are both falsy, so they are modelled as
`Nat` with `0` for the falsy cases. The two timestamps are modelled as epoch
seconds (`Option Int`, `none` for Python `None`; datetime values are always
truthy). `int(delta.total_seconds())` on whole-second datetimes is exactly
their difference. -/
structure JobStatus where
  active : Nat
  succeeded : Nat
  failed : Nat
  start_time : Option Int
  completion_time : Option Int
deriving DecidableEq

/-- A job object as used by the program: `metadata.name`, `metadata.uid`,
`metadata.namespace` (field `ns`; `namespace` is a Lean keyword) and
`status`. -/
structure Job where
  name : PyStr
  uid : String
  ns : String
  status : JobStatus
deriving DecidableEq

/-- The kind of a notification-worthy transition. -/
inductive TKind where
  | started
  | completed
  | failed
deriving DecidableEq

/-- The observable content of one emitted notification: which transition
fired, the parsed node and plan names, the Master/Worker classification, the
node version included in the message, the duration field of a Completed
message (`none` models the empty string), and the ntfy priority. -/
structure Emit where
  kind : TKind
  node_name : PyStr
  plan_name : PyStr
  node_type : String
  version : String
  duration : Option Int
  priority : String
deriving DecidableEq

/-- The `job_states` dict (main.py line 21), modelled as an association list
read through `getState`. -/
abbrev StateMap := List (String × JState)

/-- Embeds `job_states.get(uid)` / `uid in job_states` (first binding wins). -/
def getState (m : StateMap) (k : String) : Option JState :=
  match m with
  | [] => none
  | (k2, v) :: rest => if k2 = k then some v else getState rest k

/-- Embeds the dict assignment `job_states[uid] = v`: prepending a binding
gives the same `getState` semantics as overwriting. -/
def setState (m : StateMap) (k : String) (v : JState) : StateMap :=
  (k, v) :: m

def applyDash : PyStr := ['a', 'p', 'p', 'l', 'y', '-']

def masterTok : PyStr := ['m', 'a', 's', 't', 'e', 'r']

/-- Embeds main.py line 92: `"Master" if "master" in plan_name else "Worker"`. -/
def node_type_of (plan_name : PyStr) : String :=
  if hasSub masterTok plan_name then "Master" else "Worker"

/-- Embeds `handle_job_event` (main.py lines 73-144). Returns the emitted
notification (at most one per call, `none` when nothing fires) and the updated
`job_states` map. `k3s_version_of` stands for `get_k3s_version_from_node`
applied to the current cluster. The Python guard
`if not node_name or not plan_name: return` treats both `None` and the empty
string as falsy, hence the emptiness test after the `(some, some)` match. -/
def handle_job_event (k3s_version_of : PyStr → String) (event_type : String)
    (job : Job) (job_states : StateMap) : Option Emit × StateMap :=
  -- only monitor the system-upgrade namespace (line 80)
  if job.ns ≠ "system-upgrade" then (none, job_states)
  -- only monitor upgrade jobs (line 84)
  else if applyDash.isPrefixOf job.name then
    match get_node_info_from_job_name job.name with
    | (some node_name, some plan_name) =>
      if node_name = [] ∨ plan_name = [] then (none, job_states)
      else if event_type = "ADDED" ∨ event_type = "MODIFIED" then
        -- job started (line 98)
        if job.status.active ≠ 0 ∧ getState job_states job.uid = none then
          (some { kind := TKind.started, node_name := node_name,
                  plan_name := plan_name, node_type := node_type_of plan_name,
                  version := k3s_version_of node_name, duration := none,
                  priority := "default" },
           setState job_states job.uid JState.running)
        -- job completed successfully (line 112)
        else if job.status.succeeded ≠ 0 ∧
            getState job_states job.uid ≠ some JState.succeeded then
          (some { kind := TKind.completed, node_name := node_name,
                  plan_name := plan_name, node_type := node_type_of plan_name,
                  version := k3s_version_of node_name,
                  duration :=
                    match job.status.completion_time, job.status.start_time with
                    | some ct, some st => some (ct - st)
                    | _, _ => none,
                  priority := "default" },
           setState job_states job.uid JState.succeeded)
        -- job failed (line 132)
        else if job.status.failed ≠ 0 ∧
            getState job_states job.uid ≠ some JState.failed then
          (some { kind := TKind.failed, node_name := node_name,
                  plan_name := plan_name, node_type := node_type_of plan_name,
                  version := k3s_version_of node_name, duration := none,
                  priority := "high" },
           setState job_states job.uid JState.failed)
        else (none, job_states)
      else (none, job_states)
    | _ => (none, job_states)
  else (none, job_states)

/-- Folds `handle_job_event` over a sequence of delivered watch events
(event type and job object), threading the `job_states` map and collecting
every emitted notification in order. -/
def run_events (k3s_version_of : PyStr → String) :
    List (String × Job) → StateMap → List Emit × StateMap
  | [], s => ([], s)
  | (et, j) :: rest, s =>
    ((handle_job_event k3s_version_of et j s).1.toList
       ++ (run_events k3s_version_of rest (handle_job_event k3s_version_of et j s).2).1,
     (run_events k3s_version_of rest (handle_job_event k3s_version_of et j s).2).2)

/-- The tracked state each kind of emission writes into the map. -/
def trackOf : TKind → JState
  | TKind.started => JState.running
  | TKind.completed => JState.succeeded
  | TKind.failed => JState.failed

/-- Whether a tracked state is terminal (`succeeded` or `failed`). -/
def isTerminal (o : Option JState) : Bool :=
  o == some JState.succeeded || o == some JState.failed

/-- Observable steps of `main` (main.py lines 146-181), used to state what the
program does after a fatal stream error. -/
inductive MAction where
  | notify (title message priority : String)
  | sleepSeconds (n : Nat)
  | enterSeeding
  | processExit
deriving DecidableEq

/-- Embeds the except-branch of `main` and what follows it (main.py lines
173-181): on a fatal stream error the program logs, sends a high-priority
notification when `NTFY_URL` is configured, sleeps 10 seconds, and then
`main` returns — `main()` is the last statement of the script and there is no
enclosing loop, so the process exits. -/
def main_after_stream_error (ntfy_configured : Bool) (e : String) : List MAction :=
  (if ntfy_configured then
    [MAction.notify "Monitor Error"
      ("K3s upgrade monitor encountered an error: " ++ e) "high"]
  else []) ++ [MAction.sleepSeconds 10, MAction.processExit]

/-- A constant stand-in for the node-version lookup, used in concrete runs. -/
def vconst : PyStr → String := fun _ => "v1.30.0+k3s1"

/-- A concrete parseable active job in the monitored namespace. -/
def jA : Job :=
  { name := ("apply-p-on-n-with-h").toList, uid := "u1", ns := "system-upgrade",
    status := { active := 1, succeeded := 0, failed := 0,
                start_time := none, completion_time := none } }

/-- The same job observed with `succeeded` set. -/
def jS : Job :=
  { name := ("apply-p-on-n-with-h").toList, uid := "u1", ns := "system-upgrade",
    status := { active := 0, succeeded := 1, failed := 0,
                start_time := some 100, completion_time := some 160 } }

/-- The same job observed with `failed` set. -/
def jF : Job :=
  { name := ("apply-p-on-n-with-h").toList, uid := "u1", ns := "system-upgrade",
    status := { active := 0, succeeded := 0, failed := 1,
                start_time := some 100, completion_time := none } }

/-- The example job name of the specification. -/
def exampleJobName : PyStr := ("apply-k3s-master-plan-on-node-1-with-ab12cd").toList

/-- The fixed first segment of an upgrade job name. -/
def applySeg : PyStr := ['a', 'p', 'p', 'l', 'y']

/-- A cluster read that always succeeds with a fixed version. -/
def readOk : PyStr → Except String KNode :=
  fun _ => Except.ok { status := { node_info := { kubelet_version := "v1.30.0+k3s1" } } }

/-- A cluster read that always raises. -/
def readErr : PyStr → Except String KNode := fun _ => Except.error "API timeout"

theorem splitOnDash_ne_nil (s : PyStr) : splitOnDash s ≠ [] := by
  cases s with
  | nil => simp [splitOnDash]
  | cons c rest =>
    unfold splitOnDash
    split
    · simp
    · split <;> simp

theorem splitOnDash_append (x y : PyStr) :
    splitOnDash (x ++ '-' :: y) = splitOnDash x ++ splitOnDash y := by
  induction x with
  | nil => simp [splitOnDash]
  | cons c rest ih =>
    by_cases hc : c = '-'
    · subst hc
      simp [splitOnDash, ih]
    · simp only [List.cons_append, splitOnDash, if_neg hc, List.append_eq]
      rw [ih]
      cases h : splitOnDash rest with
      | nil => exact absurd h (splitOnDash_ne_nil rest)
      | cons a as => simp [h]

theorem joinDash_splitOnDash (s : PyStr) : joinDash (splitOnDash s) = s := by
  induction s with
  | nil => simp [splitOnDash, joinDash]
  | cons c rest ih =>
    by_cases hc : c = '-'
    · subst hc
      cases h : splitOnDash rest with
      | nil => exact absurd h (splitOnDash_ne_nil rest)
      | cons a as =>
        rw [h] at ih
        simp [splitOnDash, h, joinDash, ih]
    · cases h : splitOnDash rest with
      | nil => exact absurd h (splitOnDash_ne_nil rest)
      | cons a as =>
        rw [h] at ih
        cases as with
        | nil =>
          simp only [joinDash] at ih
          simp [splitOnDash, if_neg hc, h, joinDash, ih]
        | cons b bs =>
          simp only [joinDash, List.cons_append] at ih
          simp [splitOnDash, if_neg hc, h, joinDash, List.cons_append, ih]

theorem pyIndex_append (tok : PyStr) (pre post : List PyStr) (h : tok ∉ pre) :
    pyIndex tok (pre ++ tok :: post) = some pre.length := by
  induction pre with
  | nil => simp [pyIndex]
  | cons p ps ih =>
    simp only [List.mem_cons, not_or] at h
    have hne : p ≠ tok := fun hp => h.1 hp.symm
    simp [pyIndex, hne, ih h.2]

/-- C4: for every job name of the form apply-<plan>-on-<node>-with-<hash>
(non-empty plan, node and hash, written below with explicit dash separators)
where neither <plan> nor <node> contains the bare hyphen-delimited token on
or with, the parser returns exactly (<node>, <plan>). -/
theorem c4_job_name_parsing (plan node hash : PyStr)
    (hplan : plan ≠ []) (hnode : node ≠ []) (hhash : hash ≠ [])
    (h1 : onTok ∉ splitOnDash plan) (h2 : withTok ∉ splitOnDash plan)
    (h3 : onTok ∉ splitOnDash node) (h4 : withTok ∉ splitOnDash node) :
    get_node_info_from_job_name
      (applySeg ++ '-' :: (plan ++ '-' :: (onTok ++ '-' :: (node ++ '-' :: (withTok ++ '-' :: hash)))))
      = (some node, some plan) := by
  have e1 : splitOnDash applySeg = [applySeg] := by decide
  have e2 : splitOnDash onTok = [onTok] := by decide
  have e3 : splitOnDash withTok = [withTok] := by decide
  have hsplit : splitOnDash
      (applySeg ++ '-' :: (plan ++ '-' :: (onTok ++ '-' :: (node ++ '-' :: (withTok ++ '-' :: hash)))))
      = applySeg :: (splitOnDash plan ++ onTok :: (splitOnDash node ++ withTok :: splitOnDash hash)) := by
    rw [splitOnDash_append, splitOnDash_append, splitOnDash_append, splitOnDash_append,
        splitOnDash_append, e1, e2, e3]
    simp
  have hHpos : 0 < (splitOnDash hash).length :=
    List.length_pos.mpr (splitOnDash_ne_nil hash)
  have honIdx : pyIndex onTok
      (applySeg :: (splitOnDash plan ++ onTok :: (splitOnDash node ++ withTok :: splitOnDash hash)))
      = some ((splitOnDash plan).length + 1) := by
    have hrw : applySeg :: (splitOnDash plan ++ onTok :: (splitOnDash node ++ withTok :: splitOnDash hash))
        = (applySeg :: splitOnDash plan) ++ onTok :: (splitOnDash node ++ withTok :: splitOnDash hash) := by
      simp
    rw [hrw, pyIndex_append]
    · simp
    · intro hmem
      rcases List.mem_cons.mp hmem with hh | hh
      · exact absurd hh (by decide)
      · exact h1 hh
  have hwithIdx : pyIndex withTok
      (applySeg :: (splitOnDash plan ++ onTok :: (splitOnDash node ++ withTok :: splitOnDash hash)))
      = some ((splitOnDash plan).length + 1 + ((splitOnDash node).length + 1)) := by
    have hrw : applySeg :: (splitOnDash plan ++ onTok :: (splitOnDash node ++ withTok :: splitOnDash hash))
        = (applySeg :: (splitOnDash plan ++ onTok :: splitOnDash node)) ++ withTok :: splitOnDash hash := by
      simp
    rw [hrw, pyIndex_append]
    · simp
      omega
    · intro hmem
      rcases List.mem_cons.mp hmem with hh | hh
      · exact absurd hh (by decide)
      · rcases List.mem_append.mp hh with hh2 | hh2
        · exact h2 hh2
        · rcases List.mem_cons.mp hh2 with hh3 | hh3
          · exact absurd hh3 (by decide)
          · exact h4 hh3
  have hlen : ¬ ((applySeg :: (splitOnDash plan ++ onTok :: (splitOnDash node ++ withTok :: splitOnDash hash))).length < 4) := by
    simp only [List.length_cons, List.length_append]
    omega
  have hdropN : (applySeg :: (splitOnDash plan ++ onTok :: (splitOnDash node ++ withTok :: splitOnDash hash))).drop ((splitOnDash plan).length + 1 + 1)
      = splitOnDash node ++ withTok :: splitOnDash hash := by
    have hform : applySeg :: (splitOnDash plan ++ onTok :: (splitOnDash node ++ withTok :: splitOnDash hash))
        = ((applySeg :: splitOnDash plan) ++ [onTok]) ++ (splitOnDash node ++ withTok :: splitOnDash hash) := by
      simp
    have hlen2 : (splitOnDash plan).length + 1 + 1 = ((applySeg :: splitOnDash plan) ++ [onTok]).length := by
      simp
    rw [hform, hlen2, List.drop_left]
  have htakeN : (splitOnDash node ++ withTok :: splitOnDash hash).take
      ((splitOnDash plan).length + 1 + ((splitOnDash node).length + 1) - ((splitOnDash plan).length + 1 + 1))
      = splitOnDash node := by
    have hsub : (splitOnDash plan).length + 1 + ((splitOnDash node).length + 1) - ((splitOnDash plan).length + 1 + 1) = (splitOnDash node).length := by
      omega
    rw [hsub]
    exact List.take_left _ _
  have htakeP : (splitOnDash plan ++ onTok :: (splitOnDash node ++ withTok :: splitOnDash hash)).take
      ((splitOnDash plan).length + 1 - 1) = splitOnDash plan := by
    have hsub : (splitOnDash plan).length + 1 - 1 = (splitOnDash plan).length := by omega
    rw [hsub]
    exact List.take_left _ _
  simp only [get_node_info_from_job_name, hsplit, honIdx, hwithIdx, if_neg hlen]
  rw [hdropN, htakeN]
  have hdropP : (applySeg :: (splitOnDash plan ++ onTok :: (splitOnDash node ++ withTok :: splitOnDash hash))).drop 1
      = splitOnDash plan ++ onTok :: (splitOnDash node ++ withTok :: splitOnDash hash) := rfl
  rw [hdropP, htakeP, joinDash_splitOnDash, joinDash_splitOnDash]

theorem getState_setState (s : StateMap) (k u : String) (v : JState) :
    getState (setState s k v) u = if k = u then some v else getState s u := rfl

/-- Master case analysis of one `handle_job_event` call: either it is a no-op
frame (no emission, map untouched), or it emits exactly one event and writes
the matching tracked state for the job uid, under the branch guard recorded
for that kind of event. -/
theorem handle_cases (k : PyStr → String) (et : String) (j : Job) (s : StateMap) :
    handle_job_event k et j s = (none, s) ∨
    ∃ e : Emit, handle_job_event k et j s = (some e, setState s j.uid (trackOf e.kind)) ∧
      (e.kind = TKind.started → getState s j.uid = none) ∧
      (e.kind = TKind.completed → getState s j.uid ≠ some JState.succeeded) ∧
      (e.kind = TKind.failed → getState s j.uid ≠ some JState.failed) := by
  unfold handle_job_event
  split
  · exact Or.inl rfl
  split
  · split
    · split
      · exact Or.inl rfl
      · split
        · split
          · next h =>
            exact Or.inr ⟨_, rfl, fun _ => h.2,
              fun hk => TKind.noConfusion hk, fun hk => TKind.noConfusion hk⟩
          · split
            · next h =>
              exact Or.inr ⟨_, rfl, fun hk => TKind.noConfusion hk,
                fun _ => h.2, fun hk => TKind.noConfusion hk⟩
            · split
              · next h =>
                exact Or.inr ⟨_, rfl, fun hk => TKind.noConfusion hk,
                  fun hk => TKind.noConfusion hk, fun _ => h.2⟩
              · exact Or.inl rfl
        · exact Or.inl rfl
    · exact Or.inl rfl
  · exact Or.inl rfl

theorem handle_none_frame (k : PyStr → String) (et : String) (j : Job) (s : StateMap)
    (h : (handle_job_event k et j s).1 = none) :
    (handle_job_event k et j s).2 = s := by
  rcases handle_cases k et j s with hc | ⟨e, he, -, -, -⟩
  · rw [hc]
  · rw [he] at h
    exact absurd h (by simp)

theorem handle_preserves_tracked (k : PyStr → String) (et : String) (j : Job)
    (s : StateMap) (u : String) (h : getState s u ≠ none) :
    getState (handle_job_event k et j s).2 u ≠ none := by
  rcases handle_cases k et j s with hc | ⟨e, he, -, -, -⟩
  · rw [hc]
    exact h
  · rw [he, getState_setState]
    split
    · simp
    · exact h

theorem handle_some_tracks (k : PyStr → String) (et : String) (j : Job)
    (s : StateMap) (e : Emit) (h : (handle_job_event k et j s).1 = some e) :
    getState (handle_job_event k et j s).2 j.uid = some (trackOf e.kind) := by
  rcases handle_cases k et j s with hc | ⟨e2, he, -, -, -⟩
  · rw [hc] at h
    exact absurd h (by simp)
  · rw [he] at h ⊢
    simp only [Option.some.injEq] at h
    subst h
    simp [getState_setState]

theorem handle_tracked_no_started (k : PyStr → String) (et : String) (j : Job)
    (s : StateMap) (e : Emit) (htr : getState s j.uid ≠ none)
    (h : (handle_job_event k et j s).1 = some e) : e.kind ≠ TKind.started := by
  rcases handle_cases k et j s with hc | ⟨e2, he, hst, -, -⟩
  · rw [hc] at h
    exact absurd h (by simp)
  · rw [he] at h
    simp only [Option.some.injEq] at h
    subst h
    intro hk
    exact htr (hst hk)

theorem handle_terminal_stays (k : PyStr → String) (et : String) (j : Job)
    (s : StateMap) (u : String) (h : isTerminal (getState s u) = true) :
    isTerminal (getState (handle_job_event k et j s).2 u) = true := by
  rcases handle_cases k et j s with hc | ⟨e, he, hst, -, -⟩
  · rw [hc]
    exact h
  · rw [he, getState_setState]
    split
    · next heq =>
      cases hek : e.kind
      · rw [heq] at hst
        rw [hst hek] at h
        exact absurd h (by simp [isTerminal])
      · simp [isTerminal, trackOf]
      · simp [isTerminal, trackOf]
    · exact h

theorem run_events_length_le (k : PyStr → String) (obs : List (String × Job)) :
    ∀ s : StateMap, (run_events k obs s).1.length ≤ obs.length := by
  induction obs with
  | nil =>
    intro s
    simp [run_events]
  | cons hd tl ih =>
    intro s
    obtain ⟨et, j⟩ := hd
    simp only [run_events, List.length_append, List.length_cons]
    have h1 : (handle_job_event k et j s).1.toList.length ≤ 1 := by
      cases (handle_job_event k et j s).1 <;> simp
    have h2 := ih (handle_job_event k et j s).2
    omega

theorem run_events_no_started_of_tracked (k : PyStr → String) (u : String)
    (obs : List (String × Job)) :
    ∀ s : StateMap, (∀ x ∈ obs, (x.2).uid = u) → getState s u ≠ none →
      ((run_events k obs s).1.countP (fun e => e.kind == TKind.started)) = 0 := by
  induction obs with
  | nil =>
    intro s _ _
    simp [run_events]
  | cons hd tl ih =>
    intro s hu htr
    obtain ⟨et, j⟩ := hd
    have huid : j.uid = u := hu (et, j) (by simp)
    have htr2 : getState (handle_job_event k et j s).2 u ≠ none :=
      handle_preserves_tracked k et j s u htr
    have htl := ih (handle_job_event k et j s).2
      (fun x hx => hu x (List.mem_cons_of_mem _ hx)) htr2
    simp only [run_events, List.countP_append, htl, Nat.add_zero]
    cases he : (handle_job_event k et j s).1 with
    | none => simp
    | some e =>
      have hne : e.kind ≠ TKind.started :=
        handle_tracked_no_started k et j s e (huid ▸ htr) he
      simp [List.countP_cons, hne]

theorem run_events_started_le_one (k : PyStr → String) (u : String)
    (obs : List (String × Job)) :
    ∀ s : StateMap, (∀ x ∈ obs, (x.2).uid = u) →
      ((run_events k obs s).1.countP (fun e => e.kind == TKind.started)) ≤ 1 := by
  induction obs with
  | nil =>
    intro s _
    simp [run_events]
  | cons hd tl ih =>
    intro s hu
    obtain ⟨et, j⟩ := hd
    have huid : j.uid = u := hu (et, j) (by simp)
    by_cases htr : getState s u = none
    · cases he : (handle_job_event k et j s).1 with
      | none =>
        have hfr : (handle_job_event k et j s).2 = s :=
          handle_none_frame k et j s he
        have htl := ih s (fun x hx => hu x (List.mem_cons_of_mem _ hx))
        simp only [run_events, List.countP_append, he, hfr, Option.toList_none,
          List.countP_nil, Nat.zero_add]
        exact htl
      | some e =>
        have htracked : getState (handle_job_event k et j s).2 u ≠ none := by
          have hts := handle_some_tracks k et j s e he
          rw [huid] at hts
          rw [hts]
          simp
        have h0 := run_events_no_started_of_tracked k u tl
          (handle_job_event k et j s).2
          (fun x hx => hu x (List.mem_cons_of_mem _ hx)) htracked
        simp only [run_events, List.countP_append, h0, Nat.add_zero, he]
        cases hek : e.kind == TKind.started <;> simp [List.countP_cons, hek]
    · have h0 := run_events_no_started_of_tracked k u ((et, j) :: tl) s hu htr
      omega

theorem run_events_terminal_stays (k : PyStr → String) (obs : List (String × Job)) :
    ∀ (s : StateMap) (u : String), isTerminal (getState s u) = true →
      isTerminal (getState (run_events k obs s).2 u) = true := by
  induction obs with
  | nil =>
    intro s u h
    simpa [run_events] using h
  | cons hd tl ih =>
    intro s u h
    obtain ⟨et, j⟩ := hd
    simp only [run_events]
    exact ih (handle_job_event k et j s).2 u (handle_terminal_stays k et j s u h)

/-- One observation through the filters with `active` truthy and an untracked
uid fires the started branch (main.py lines 98-109). -/
theorem handle_started_spec (k : PyStr → String) (et : String) (j : Job)
    (s : StateMap) (nn pn : PyStr)
    (het : et = "ADDED" ∨ et = "MODIFIED")
    (hns : j.ns = "system-upgrade")
    (hpre : applyDash.isPrefixOf j.name = true)
    (hparse : get_node_info_from_job_name j.name = (some nn, some pn))
    (hnn : nn ≠ []) (hpn : pn ≠ [])
    (hact : j.status.active ≠ 0) (hun : getState s j.uid = none) :
    handle_job_event k et j s =
      (some { kind := TKind.started, node_name := nn, plan_name := pn,
              node_type := node_type_of pn, version := k nn, duration := none,
              priority := "default" },
       setState s j.uid JState.running) := by
  unfold handle_job_event
  rw [hparse]
  simp [hns, hpre, hnn, hpn, hact, hun, het]

/-- One observation through the filters with the started guard false,
`succeeded` truthy and tracked state not `succeeded` fires the completed
branch (main.py lines 112-129). -/
theorem handle_completed_spec (k : PyStr → String) (et : String) (j : Job)
    (s : StateMap) (nn pn : PyStr)
    (het : et = "ADDED" ∨ et = "MODIFIED")
    (hns : j.ns = "system-upgrade")
    (hpre : applyDash.isPrefixOf j.name = true)
    (hparse : get_node_info_from_job_name j.name = (some nn, some pn))
    (hnn : nn ≠ []) (hpn : pn ≠ [])
    (hnostart : ¬ (j.status.active ≠ 0 ∧ getState s j.uid = none))
    (hsucc : j.status.succeeded ≠ 0)
    (hnot : getState s j.uid ≠ some JState.succeeded) :
    handle_job_event k et j s =
      (some { kind := TKind.completed, node_name := nn, plan_name := pn,
              node_type := node_type_of pn, version := k nn,
              duration :=
                match j.status.completion_time, j.status.start_time with
                | some ct, some st => some (ct - st)
                | _, _ => none,
              priority := "default" },
       setState s j.uid JState.succeeded) := by
  unfold handle_job_event
  rw [hparse]
  simp [hns, hpre, hnn, hpn, het, hnostart, hsucc, hnot]

/-- One observation through the filters with the started and completed guards
false, `failed` truthy and tracked state not `failed` fires the failed branch
(main.py lines 132-144). -/
theorem handle_failed_spec (k : PyStr → String) (et : String) (j : Job)
    (s : StateMap) (nn pn : PyStr)
    (het : et = "ADDED" ∨ et = "MODIFIED")
    (hns : j.ns = "system-upgrade")
    (hpre : applyDash.isPrefixOf j.name = true)
    (hparse : get_node_info_from_job_name j.name = (some nn, some pn))
    (hnn : nn ≠ []) (hpn : pn ≠ [])
    (hnostart : ¬ (j.status.active ≠ 0 ∧ getState s j.uid = none))
    (hnosucc : ¬ (j.status.succeeded ≠ 0 ∧
      getState s j.uid ≠ some JState.succeeded))
    (hfail : j.status.failed ≠ 0)
    (hnot : getState s j.uid ≠ some JState.failed) :
    handle_job_event k et j s =
      (some { kind := TKind.failed, node_name := nn, plan_name := pn,
              node_type := node_type_of pn, version := k nn, duration := none,
              priority := "high" },
       setState s j.uid JState.failed) := by
  unfold handle_job_event
  rw [hparse]
  simp [hns, hpre, hnn, hpn, het, hnostart, hnosucc, hfail, hnot]

/-- C1 (code bug evaluation): after a fatal stream error the embedded main
error path emits the configured high-priority notification and sleeps 10
seconds, but then the process exits; the trace never re-enters Seeding, with
or without an endpoint configured — the program does not restart its loop. -/
theorem c1_error_path_exits :
    main_after_stream_error true "Connection refused" =
      [MAction.notify "Monitor Error"
        ("K3s upgrade monitor encountered an error: " ++ "Connection refused")
        "high",
       MAction.sleepSeconds 10, MAction.processExit] ∧
    MAction.enterSeeding ∉ main_after_stream_error true "Connection refused" ∧
    MAction.enterSeeding ∉ main_after_stream_error false "Connection refused" := by
  refine ⟨rfl, ?_, ?_⟩ <;> decide

/-- C2 counterexample: an untracked identity observed as succeeded, then
failed, then succeeded again emits Completed, Failed, Completed — two
Completed events over one observed lifetime, and a state that moves from the
terminal succeeded back out to failed and back, refuting at-most-one-Completed
and strict monotonicity between terminal states. -/
theorem c2_counterexample :
    ((run_events vconst [("MODIFIED", jS), ("MODIFIED", jF), ("MODIFIED", jS)]
        []).1.map (fun e => e.kind)
      = [TKind.completed, TKind.failed, TKind.completed]) ∧
    ((run_events vconst [("MODIFIED", jS), ("MODIFIED", jF), ("MODIFIED", jS)]
        []).1.countP (fun e => e.kind == TKind.completed)) = 2 := by
  exact ⟨by decide, by decide⟩

/-- C2 corrected: over any sequence of observations of one job identity, each
call emits at most one event (so at most as many events as calls), at most
one Started is emitted over the whole sequence, and a terminal tracked state
never reverts to a non-terminal one; however Completed and Failed are each
guarded only against themselves, so they can recur when the observed status
alternates between succeeded and failed. -/
theorem c2_tracker_events (k : PyStr → String) (u : String)
    (obs : List (String × Job)) (s : StateMap)
    (hu : ∀ x ∈ obs, (x.2).uid = u) :
    (run_events k obs s).1.length ≤ obs.length ∧
    ((run_events k obs s).1.countP (fun e => e.kind == TKind.started)) ≤ 1 ∧
    (isTerminal (getState s u) = true →
      isTerminal (getState (run_events k obs s).2 u) = true) :=
  ⟨run_events_length_le k obs s, run_events_started_le_one k u obs s hu,
   fun h => run_events_terminal_stays k obs s u h⟩

theorem c2_tracker_events_witness :
    (∀ x ∈ [("MODIFIED", jA), ("MODIFIED", jS)], (x.2).uid = "u1") ∧
    ((run_events vconst [("MODIFIED", jA), ("MODIFIED", jS)] []).1.length ≤ 2 ∧
     ((run_events vconst [("MODIFIED", jA), ("MODIFIED", jS)] []).1.countP
        (fun e => e.kind == TKind.started)) ≤ 1 ∧
     (isTerminal (getState [] "u1") = true →
       isTerminal
         (getState (run_events vconst [("MODIFIED", jA), ("MODIFIED", jS)] []).2
           "u1") = true)) :=
  ⟨by decide,
   c2_tracker_events vconst "u1" [("MODIFIED", jA), ("MODIFIED", jS)] []
     (by decide)⟩

/-- C3 counterexample: a job whose identity is tracked as initialized (the
pre-seeded state, neither running nor terminal) and whose status has active
set emits nothing and keeps its state — the started branch requires the uid
to be absent from the map, so an initialized identity does not fire Started. -/
theorem c3_counterexample :
    handle_job_event vconst "MODIFIED" jA [("u1", JState.initialized)] =
      (none, [("u1", JState.initialized)]) := by
  decide

/-- C3 corrected: Started fires exactly for an observation with active truthy
whose identity is completely untracked (absent from the map), marking it
running; an identity tracked as initialized does not fire Started. -/
theorem c3_started_only_untracked (k : PyStr → String) (et : String) (j : Job)
    (s : StateMap) (nn pn : PyStr)
    (het : et = "ADDED" ∨ et = "MODIFIED")
    (hns : j.ns = "system-upgrade")
    (hpre : applyDash.isPrefixOf j.name = true)
    (hparse : get_node_info_from_job_name j.name = (some nn, some pn))
    (hnn : nn ≠ []) (hpn : pn ≠ [])
    (hact : j.status.active ≠ 0) (hun : getState s j.uid = none) :
    handle_job_event k et j s =
      (some { kind := TKind.started, node_name := nn, plan_name := pn,
              node_type := node_type_of pn, version := k nn, duration := none,
              priority := "default" },
       setState s j.uid JState.running) :=
  handle_started_spec k et j s nn pn het hns hpre hparse hnn hpn hact hun

theorem c3_started_only_untracked_witness :
    ((("MODIFIED" : String) = "ADDED" ∨ ("MODIFIED" : String) = "MODIFIED") ∧
      jA.ns = "system-upgrade" ∧ applyDash.isPrefixOf jA.name = true ∧
      get_node_info_from_job_name jA.name = (some ['n'], some ['p']) ∧
      (['n'] : PyStr) ≠ [] ∧ (['p'] : PyStr) ≠ [] ∧
      jA.status.active ≠ 0 ∧ getState [] jA.uid = none) ∧
    handle_job_event vconst "MODIFIED" jA [] =
      (some { kind := TKind.started, node_name := ['n'], plan_name := ['p'],
              node_type := "Worker", version := "v1.30.0+k3s1",
              duration := none, priority := "default" },
       setState [] "u1" JState.running) :=
  ⟨by decide,
   c3_started_only_untracked vconst "MODIFIED" jA [] ['n'] ['p']
     (Or.inr rfl) rfl (by decide) (by decide) (by decide) (by decide)
     (by decide) (by decide)⟩

/-- C4 witness data: the concrete name apply-p-on-n-with-h parses to node n
and plan p. -/
theorem c4_job_name_parsing_witness :
    (((['p'] : PyStr) ≠ [] ∧ (['n'] : PyStr) ≠ [] ∧ (['h'] : PyStr) ≠ []) ∧
      onTok ∉ splitOnDash ['p'] ∧ withTok ∉ splitOnDash ['p'] ∧
      onTok ∉ splitOnDash ['n'] ∧ withTok ∉ splitOnDash ['n']) ∧
    get_node_info_from_job_name (("apply-p-on-n-with-h").toList) =
      (some ['n'], some ['p']) :=
  ⟨by decide,
   c4_job_name_parsing ['p'] ['n'] ['h'] (by decide) (by decide) (by decide)
     (by decide) (by decide) (by decide) (by decide)⟩

/-- C5: an untracked identity observed first as active, then with succeeded
set, emits exactly one Started then exactly one Completed, in that order; the
Completed duration equals completion time minus start time when both are
present and is empty (none) otherwise. -/
theorem c5_started_then_completed (k : PyStr → String) (et1 et2 : String)
    (j1 j2 : Job) (s : StateMap) (nn1 pn1 nn2 pn2 : PyStr)
    (het1 : et1 = "ADDED" ∨ et1 = "MODIFIED")
    (het2 : et2 = "ADDED" ∨ et2 = "MODIFIED")
    (hns1 : j1.ns = "system-upgrade") (hns2 : j2.ns = "system-upgrade")
    (hpre1 : applyDash.isPrefixOf j1.name = true)
    (hpre2 : applyDash.isPrefixOf j2.name = true)
    (hparse1 : get_node_info_from_job_name j1.name = (some nn1, some pn1))
    (hparse2 : get_node_info_from_job_name j2.name = (some nn2, some pn2))
    (hnn1 : nn1 ≠ []) (hpn1 : pn1 ≠ []) (hnn2 : nn2 ≠ []) (hpn2 : pn2 ≠ [])
    (huid : j2.uid = j1.uid)
    (hact : j1.status.active ≠ 0) (hun : getState s j1.uid = none)
    (hsucc : j2.status.succeeded ≠ 0) :
    (handle_job_event k et1 j1 s).1 =
      some { kind := TKind.started, node_name := nn1, plan_name := pn1,
             node_type := node_type_of pn1, version := k nn1, duration := none,
             priority := "default" } ∧
    (handle_job_event k et2 j2 (handle_job_event k et1 j1 s).2).1 =
      some { kind := TKind.completed, node_name := nn2, plan_name := pn2,
             node_type := node_type_of pn2, version := k nn2,
             duration :=
               match j2.status.completion_time, j2.status.start_time with
               | some ct, some st => some (ct - st)
               | _, _ => none,
             priority := "default" } := by
  have h1 := handle_started_spec k et1 j1 s nn1 pn1 het1 hns1 hpre1 hparse1
    hnn1 hpn1 hact hun
  constructor
  · rw [h1]
  · rw [h1]
    show (handle_job_event k et2 j2 (setState s j1.uid JState.running)).1 = _
    have hrun : getState (setState s j1.uid JState.running) j2.uid =
        some JState.running := by
      rw [huid, getState_setState, if_pos rfl]
    have h2 := handle_completed_spec k et2 j2 (setState s j1.uid JState.running)
      nn2 pn2 het2 hns2 hpre2 hparse2 hnn2 hpn2
      (by simp [hrun]) hsucc (by simp [hrun])
    rw [h2]

theorem c5_started_then_completed_witness :
    (jA.ns = "system-upgrade" ∧ jS.ns = "system-upgrade" ∧
      applyDash.isPrefixOf jA.name = true ∧ applyDash.isPrefixOf jS.name = true ∧
      get_node_info_from_job_name jA.name = (some ['n'], some ['p']) ∧
      get_node_info_from_job_name jS.name = (some ['n'], some ['p']) ∧
      jS.uid = jA.uid ∧ jA.status.active ≠ 0 ∧ getState [] jA.uid = none ∧
      jS.status.succeeded ≠ 0) ∧
    (handle_job_event vconst "ADDED" jA []).1 =
      some { kind := TKind.started, node_name := ['n'], plan_name := ['p'],
             node_type := "Worker", version := "v1.30.0+k3s1", duration := none,
             priority := "default" } ∧
    (handle_job_event vconst "MODIFIED" jS
        (handle_job_event vconst "ADDED" jA []).2).1 =
      some { kind := TKind.completed, node_name := ['n'], plan_name := ['p'],
             node_type := "Worker", version := "v1.30.0+k3s1",
             duration := some 60, priority := "default" } :=
  ⟨by decide,
   c5_started_then_completed vconst "ADDED" "MODIFIED" jA jS []
     ['n'] ['p'] ['n'] ['p'] (Or.inl rfl) (Or.inr rfl) rfl rfl
     (by decide) (by decide) (by decide) (by decide) (by decide) (by decide)
     (by decide) (by decide) (by decide) (by decide) (by decide) (by decide)⟩

/-- C6: an identity tracked as succeeded that is later observed with failed
set still emits a Failed event (high priority) and is marked failed — for any
succeeded count, zero or unchanged alike: the succeeded terminal state does
not suppress reporting the failed one. -/
theorem c6_failed_after_succeeded (k : PyStr → String) (et : String) (j : Job)
    (s : StateMap) (nn pn : PyStr)
    (het : et = "ADDED" ∨ et = "MODIFIED")
    (hns : j.ns = "system-upgrade")
    (hpre : applyDash.isPrefixOf j.name = true)
    (hparse : get_node_info_from_job_name j.name = (some nn, some pn))
    (hnn : nn ≠ []) (hpn : pn ≠ [])
    (hstate : getState s j.uid = some JState.succeeded)
    (hfail : j.status.failed ≠ 0) :
    handle_job_event k et j s =
      (some { kind := TKind.failed, node_name := nn, plan_name := pn,
              node_type := node_type_of pn, version := k nn, duration := none,
              priority := "high" },
       setState s j.uid JState.failed) :=
  handle_failed_spec k et j s nn pn het hns hpre hparse hnn hpn
    (by simp [hstate]) (by simp [hstate]) hfail (by simp [hstate])

theorem c6_failed_after_succeeded_witness :
    (jF.ns = "system-upgrade" ∧ applyDash.isPrefixOf jF.name = true ∧
      get_node_info_from_job_name jF.name = (some ['n'], some ['p']) ∧
      getState [("u1", JState.succeeded)] jF.uid = some JState.succeeded ∧
      jF.status.failed ≠ 0) ∧
    handle_job_event vconst "MODIFIED" jF [("u1", JState.succeeded)] =
      (some { kind := TKind.failed, node_name := ['n'], plan_name := ['p'],
              node_type := "Worker", version := "v1.30.0+k3s1", duration := none,
              priority := "high" },
       setState [("u1", JState.succeeded)] "u1" JState.failed) :=
  ⟨by decide,
   c6_failed_after_succeeded vconst "MODIFIED" jF [("u1", JState.succeeded)]
     ['n'] ['p'] (Or.inr rfl) rfl (by decide) (by decide) (by decide)
     (by decide) (by decide) (by decide)⟩

/-- C7: the notifier never raises to its caller: with no endpoint configured
it is a logged no-op, and with one configured every transport outcome — an
exception from the HTTP call or any response status — is mapped to a logged,
swallowed result. -/
theorem c7_notifier_never_raises (cfg : NtfyConfig)
    (post : String → String → String → String → Except String Nat)
    (title message priority : String) :
    ∃ log : String,
      send_ntfy_notification cfg post title message priority = Except.ok log := by
  unfold send_ntfy_notification
  split
  · exact ⟨_, rfl⟩
  · split
    · split
      · exact ⟨_, rfl⟩
      · exact ⟨_, rfl⟩
    · exact ⟨_, rfl⟩

/-- C8: the version lookup returns the reported kubelet version string on a
successful cluster read and the literal sentinel unknown on any failing read;
being a total function of the read outcome it never raises to the caller. -/
theorem c8_version_lookup (read_node : PyStr → Except String KNode)
    (node_name : PyStr) :
    (∀ node : KNode, read_node node_name = Except.ok node →
      get_k3s_version_from_node read_node node_name =
        node.status.node_info.kubelet_version) ∧
    (∀ err : String, read_node node_name = Except.error err →
      get_k3s_version_from_node read_node node_name = "unknown") := by
  constructor
  · intro node h
    unfold get_k3s_version_from_node
    rw [h]
  · intro err h
    unfold get_k3s_version_from_node
    rw [h]

theorem c8_version_lookup_witness :
    get_k3s_version_from_node readOk (("node-1").toList) = "v1.30.0+k3s1" ∧
    get_k3s_version_from_node readErr (("node-1").toList) = "unknown" :=
  ⟨(c8_version_lookup readOk (("node-1").toList)).1
      { status := { node_info := { kubelet_version := "v1.30.0+k3s1" } } } rfl,
   (c8_version_lookup readErr (("node-1").toList)).2 "API timeout" rfl⟩

/-- C9: the example job name apply-k3s-master-plan-on-node-1-with-ab12cd
parses to plan k3s-master-plan and node node-1; the plan classifies as Master
because it contains the substring master, and every plan name without that
substring classifies as Worker. -/
theorem c9_example_classification :
    get_node_info_from_job_name exampleJobName =
      (some (("node-1").toList), some (("k3s-master-plan").toList)) ∧
    node_type_of (("k3s-master-plan").toList) = "Master" ∧
    (∀ p : PyStr, hasSub masterTok p = false → node_type_of p = "Worker") := by
  refine ⟨by decide, by decide, fun p hp => ?_⟩
  simp [node_type_of, hp]

theorem c9_example_classification_witness :
    hasSub masterTok (("k3s-agent-plan").toList) = false ∧
    node_type_of (("k3s-agent-plan").toList) = "Worker" :=
  ⟨by decide,
   c9_example_classification.2.2 (("k3s-agent-plan").toList) (by decide)⟩

/-- C10: any delivered event whose type is neither ADDED nor MODIFIED (for
example DELETED) leaves the job-state map completely unchanged and emits no
notification, regardless of the job namespace, name or status flags. -/
theorem c10_non_add_modify_frame (k : PyStr → String) (et : String) (j : Job)
    (s : StateMap) (h1 : et ≠ "ADDED") (h2 : et ≠ "MODIFIED") :
    handle_job_event k et j s = (none, s) := by
  unfold handle_job_event
  repeat' split <;> simp_all

theorem c10_non_add_modify_frame_witness :
    (("DELETED" : String) ≠ "ADDED" ∧ ("DELETED" : String) ≠ "MODIFIED") ∧
    handle_job_event vconst "DELETED" jS [("u1", JState.running)] =
      (none, [("u1", JState.running)]) :=
  ⟨by decide,
   c10_non_add_modify_frame vconst "DELETED" jS [("u1", JState.running)]
     (by decide) (by decide)⟩
